import Mathlib

/-
Verification of the tardcore_trader repository: a shallow embedding of the
request-signing routine, the authenticated API client, the CoinMarketCap
helpers, the snapshot writer, the portfolio display and the dilution check,
together with theorems settling the specification claims.

Modelling conventions:
- Python dicts/JSON values are modelled by the inductive `JVal`; dict
  insertion order is preserved as list order.
- Python exceptions are modelled by `Except PyExc`; a function that cannot
  raise simply returns the value.
- External collaborators (the HTTP transport, the Ed25519 signing primitive
  of PyNaCl, the float parser/printer of CPython) are parameters of the
  embedding, so every theorem quantifies over them; the repository-owned
  logic (message construction, path building, control flow, guards) is
  translated concretely from the source.
- Python float values are carried as exact rationals; the float operations
  the claims never evaluate numerically are environment functions.
- `print` output is captured as a list of emitted strings where a claim
  observes it.
-/

namespace TT

/-- JSON-like values exchanged with the two vendor APIs (Python dicts,
lists, strings, numbers, booleans and None). -/
inductive JVal where
  | jnull : JVal
  | jbool : Bool → JVal
  | jnum : ℚ → JVal
  | jstr : String → JVal
  | jarr : List JVal → JVal
  | jobj : List (String × JVal) → JVal
deriving Repr

/-- Python exceptions that the modelled code can raise. -/
inductive PyExc where
  | runtimeError : String → PyExc
  | valueError : String → PyExc
  | typeError : String → PyExc
  | keyError : String → PyExc
  | attributeError : String → PyExc
  | binasciiError : String → PyExc
  | cmcError : String → PyExc
  | zeroDivisionError : String → PyExc
deriving Repr, DecidableEq

open JVal PyExc

/-- Python truthiness of a JSON value. -/
def pyTruthy : JVal → Bool
  | jnull => false
  | jbool b => b
  | jnum q => q != 0
  | jstr s => s != ""
  | jarr xs => !xs.isEmpty
  | jobj fs => !fs.isEmpty

/-- `a or b` on JSON values. -/
def jOr (a b : JVal) : JVal := if pyTruthy a then a else b

/-- `d.get(k, default)`: `AttributeError` when the receiver is not a dict. -/
def pyDictGetD (v : JVal) (k : String) (dflt : JVal) : Except PyExc JVal :=
  match v with
  | jobj fs => .ok ((fs.lookup k).getD dflt)
  | _ => .error (.attributeError ("object has no attribute get: " ++ k))

/-- `d[k]`: `KeyError` when the key is absent, `TypeError` when the receiver
is not a dict. -/
def pyIndex (v : JVal) (k : String) : Except PyExc JVal :=
  match v with
  | jobj fs =>
    match fs.lookup k with
    | some x => .ok x
    | none => .error (.keyError k)
  | _ => .error (.typeError ("object is not subscriptable: " ++ k))

/-- Iterating a value with a `for` loop; only lists are iterated in the
modelled code paths, anything else is a `TypeError`. -/
def pyIterList : JVal → Except PyExc (List JVal)
  | jarr xs => .ok xs
  | _ => .error (.typeError "object is not iterable")

/-! ### Base64 (Python `base64.b64encode` / `b64decode`) -/

/-- Code point of the base64 alphabet character for a 6-bit value. -/
def b64code (n : Nat) : Nat :=
  if n < 26 then 65 + n
  else if n < 52 then 71 + n
  else if n < 62 then n - 4
  else if n = 62 then 43
  else 47

/-- Base64 alphabet character for a 6-bit value. -/
def encChar (n : Nat) : Char := Char.ofNat (b64code n)

/-- Characters of the base64 encoding of a byte list, with padding. -/
def b64chars : List Nat → List Char
  | [] => []
  | [a] => [encChar (a / 4), encChar (a % 4 * 16), '=', '=']
  | [a, b] => [encChar (a / 4), encChar (a % 4 * 16 + b / 16), encChar (b % 16 * 4), '=']
  | a :: b :: c :: rest =>
    encChar (a / 4) :: encChar (a % 4 * 16 + b / 16) ::
      encChar (b % 16 * 4 + c / 64) :: encChar (c % 64) :: b64chars rest

/-- `base64.b64encode(bytes).decode("utf-8")`. -/
def b64encodeBytes (l : List Nat) : String := String.mk (b64chars l)

/-- Value of a base64 alphabet character. -/
def charVal (c : Char) : Option Nat :=
  let n := c.toNat
  if 65 ≤ n ∧ n ≤ 90 then some (n - 65)
  else if 97 ≤ n ∧ n ≤ 122 then some (n - 71)
  else if 48 ≤ n ∧ n ≤ 57 then some (n + 4)
  else if n = 43 then some 62
  else if n = 47 then some 63
  else none

/-- Decode base64 characters in groups of four; `none` models
`binascii.Error` (wrong padding). -/
def decode4 : List Char → Option (List Nat)
  | [] => some []
  | c1 :: c2 :: c3 :: c4 :: rest =>
    match charVal c1, charVal c2 with
    | some v1, some v2 =>
      if c3 = '=' ∧ c4 = '=' ∧ rest = [] then some [v1 * 4 + v2 / 16]
      else
        match charVal c3 with
        | some v3 =>
          if c4 = '=' ∧ rest = [] then some [v1 * 4 + v2 / 16, v2 % 16 * 16 + v3 / 4]
          else
            match charVal c4 with
            | some v4 =>
              match decode4 rest with
              | some tail =>
                some ((v1 * 4 + v2 / 16) :: (v2 % 16 * 16 + v3 / 4) :: (v3 % 4 * 64 + v4) :: tail)
              | none => none
            | none => none
        | none => none
    | _, _ => none
  | _ => none

/-- `base64.b64decode(s)`: characters outside the alphabet are discarded
before the padding check (CPython default `validate=False`). -/
def b64decodeBytes (s : String) : Option (List Nat) :=
  decode4 (s.data.filter (fun c => (charVal c).isSome ∨ c = '='))

/-! ### UTF-8 encoding (`str.encode("utf-8")`) -/

/-- UTF-8 bytes of a single code point. -/
def utf8Bytes (n : Nat) : List Nat :=
  if n < 128 then [n]
  else if n < 2048 then [192 + n / 64, 128 + n % 64]
  else if n < 65536 then [224 + n / 4096, 128 + n / 64 % 64, 128 + n % 64]
  else [240 + n / 262144, 128 + n / 4096 % 64, 128 + n / 64 % 64, 128 + n % 64]

/-- UTF-8 bytes of a string. -/
def strUtf8 (s : String) : List Nat :=
  (s.data.map (fun c => utf8Bytes c.toNat)).flatten

/-! ### Decimal rendering of a natural number (`f"{timestamp}"`, `str(n)`) -/

/-- Decimal digits, most significant first, by fuel-bounded recursion (the
fuel is an upper bound on the value, so it never runs out). -/
def natDigitsAux : Nat → Nat → List Nat
  | 0, n => [n % 10]
  | fuel + 1, n => if n < 10 then [n] else natDigitsAux fuel (n / 10) ++ [n % 10]

/-- Decimal digits of a natural number, most significant first. -/
def natDigits (n : Nat) : List Nat := natDigitsAux n n

/-- A decimal digit character. -/
def digitChar (d : Nat) : Char := Char.ofNat (48 + d)

/-- Decimal string of a natural number. -/
def pyNatStr (n : Nat) : String := String.mk ((natDigits n).map digitChar)

/-! ### The request signer (`robinhood/client.py`, `generate_signature_base64`) -/

/-- `generate_signature_base64`: decode the base64 private key, build the
message `f"{api_key}{timestamp}{path}{method}{body}"`, sign its UTF-8 bytes
and base64-encode the signature.  The Ed25519 primitive of PyNaCl is the
parameter `sign` (seed bytes, message bytes ↦ signature bytes); PyNaCl
rejects a seed that is not exactly 32 bytes with a `ValueError`, and a
malformed base64 key raises `binascii.Error` from `base64.b64decode`. -/
def generate_signature_base64 (sign : List Nat → List Nat → List Nat)
    (api_key base64_private_key : String) (timestamp : Nat)
    (path method body : String) : Except PyExc String :=
  match b64decodeBytes base64_private_key with
  | none => .error (.binasciiError "Invalid base64-encoded string")
  | some private_key_seed =>
    if private_key_seed.length = 32 then
      let message := api_key ++ pyNatStr timestamp ++ path ++ method ++ body
      .ok (b64encodeBytes (sign private_key_seed (strUtf8 message)))
    else .error (.valueError "The seed must be exactly 32 bytes long")

/-! ### JSON serialization (`json.dumps`) -/

/-- A JSON string literal with quote/backslash escaping (ASCII payloads). -/
def jStrLit (s : String) : String :=
  "\"" ++ String.join (s.data.map (fun c =>
    if c = '"' then "\\\"" else if c = '\\' then "\\\\" else String.singleton c)) ++ "\""

mutual

/-- `json.dumps(v)` with CPython's default separators `(", ", ": ")`;
float rendering is the environment function `fr`. -/
def jsonDumps (fr : ℚ → String) : JVal → String
  | .jnull => "null"
  | .jbool b => if b then "true" else "false"
  | .jnum q => fr q
  | .jstr s => jStrLit s
  | .jarr xs => "[" ++ jdItems fr xs ++ "]"
  | .jobj fs => "\x7b" ++ jdFields fr fs ++ "\x7d"

/-- Comma-joined array items of `jsonDumps`. -/
def jdItems (fr : ℚ → String) : List JVal → String
  | [] => ""
  | [x] => jsonDumps fr x
  | x :: y :: xs => jsonDumps fr x ++ ", " ++ jdItems fr (y :: xs)

/-- Comma-joined object fields of `jsonDumps`. -/
def jdFields (fr : ℚ → String) : List (String × JVal) → String
  | [] => ""
  | [(k, v)] => jStrLit k ++ ": " ++ jsonDumps fr v
  | (k, v) :: y :: fs => jStrLit k ++ ": " ++ jsonDumps fr v ++ ", " ++ jdFields fr (y :: fs)

end

/-- Indentation padding of `json.dumps(..., indent=ind)` at level `lvl`. -/
def jPad (ind lvl : Nat) : String := String.mk (List.replicate (ind * lvl) ' ')

mutual

/-- `json.dumps(v, indent=ind)` at nesting level `lvl`. -/
def jsonDumpsInd (fr : ℚ → String) (ind lvl : Nat) : JVal → String
  | .jnull => "null"
  | .jbool b => if b then "true" else "false"
  | .jnum q => fr q
  | .jstr s => jStrLit s
  | .jarr xs =>
    if xs.isEmpty then "[]"
    else "[\n" ++ jPad ind (lvl + 1) ++ jiItems fr ind (lvl + 1) xs ++ "\n" ++ jPad ind lvl ++ "]"
  | .jobj fs =>
    if fs.isEmpty then "\x7b\x7d"
    else
      "\x7b\n" ++ jPad ind (lvl + 1) ++ jiFields fr ind (lvl + 1) fs ++ "\n" ++ jPad ind lvl ++ "\x7d"

/-- Newline-joined array items of `jsonDumpsInd`. -/
def jiItems (fr : ℚ → String) (ind lvl : Nat) : List JVal → String
  | [] => ""
  | [x] => jsonDumpsInd fr ind lvl x
  | x :: y :: xs =>
    jsonDumpsInd fr ind lvl x ++ ",\n" ++ jPad ind lvl ++ jiItems fr ind lvl (y :: xs)

/-- Newline-joined object fields of `jsonDumpsInd`. -/
def jiFields (fr : ℚ → String) (ind lvl : Nat) : List (String × JVal) → String
  | [] => ""
  | [(k, v)] => jStrLit k ++ ": " ++ jsonDumpsInd fr ind lvl v
  | (k, v) :: y :: fs =>
    jStrLit k ++ ": " ++ jsonDumpsInd fr ind lvl v ++ ",\n" ++ jPad ind lvl ++ jiFields fr ind lvl (y :: fs)

end

/-! ### The authenticated API client (`robinhood/client.py`) -/

/-- CPython float semantics that the claims never evaluate numerically:
`float(str)` parsing, `str(float)` rendering, and `f"{x:.2f}"` formatting.
Values are carried as exact rationals. -/
structure FloatModel where
  parse : String → Option ℚ
  render : ℚ → String
  fmt2 : ℚ → String

/-- Outcome of one `requests.get`/`requests.post` call: a parsed JSON body,
or a raised `requests.RequestException` carrying `str(e)`. -/
inductive HttpResult where
  | success : JVal → HttpResult
  | failure : String → HttpResult

/-- External collaborators of the client: the Ed25519 signing primitive,
the HTTP transport, the wall clock (`_now_ts`) and float semantics. -/
structure NetEnv where
  sign : List Nat → List Nat → List Nat
  transport : String → String → List (String × String) → Option JVal → HttpResult
  now : Nat
  fm : FloatModel

/-- The state of a `CryptoAPITrading` instance after `__init__`. -/
structure Client where
  apiKey : Option String
  b64PrivateKey : Option String
  baseUrl : String
  timeout : Nat
deriving DecidableEq

/-- Python `a or b` over optional strings (`None` and `""` are falsy). -/
def pyOr (a b : Option String) : Option String :=
  match a with
  | some s => if s = "" then b else some s
  | none => b

/-- `s.rstrip("/")`. -/
def rstripSlash (s : String) : String :=
  String.mk (s.data.reverse.dropWhile (fun c => c = '/')).reverse

/-- `CryptoAPITrading.__init__`: fall back to the environment variables and
keep going even when no credentials are available (the guard only raises at
call time). -/
def mkClient (api_key base64_private_key : Option String)
    (getenv : String → Option String) (base_url : String) (timeout : Nat) : Client :=
  { apiKey := pyOr api_key (pyOr (getenv "API_KEY") (getenv "ROBINHOOD_API_KEY"))
    b64PrivateKey :=
      pyOr base64_private_key
        (pyOr (getenv "BASE64_PRIVATE_KEY") (getenv "ROBINHOOD_BASE64_PRIVATE_KEY"))
    baseUrl := rstripSlash base_url
    timeout := timeout }

/-- Truthiness of an optional string (`not self.api_key`). -/
def strTruthy : Option String → Bool
  | none => false
  | some s => s != ""

/-- The `RuntimeError` message raised when credentials are missing. -/
def credsMsg : String :=
  "API_KEY and BASE64_PRIVATE_KEY are required. Set env vars or pass into CryptoAPITrading()."

/-- `CryptoAPITrading._auth_headers`. -/
def _auth_headers (env : NetEnv) (client : Client) (method path body : String) :
    Except PyExc (List (String × String)) :=
  if strTruthy client.apiKey ∧ strTruthy client.b64PrivateKey then
    let ts := env.now
    match generate_signature_base64 env.sign (client.apiKey.getD "")
        (client.b64PrivateKey.getD "") ts path method body with
    | .error e => .error e
    | .ok signature =>
      .ok [("x-api-key", client.apiKey.getD ""), ("x-signature", signature),
           ("x-timestamp", pyNatStr ts),
           ("Content-Type", "application/json; charset=utf-8")]
  else .error (.runtimeError credsMsg)

/-- The structured transport-error payload returned instead of raising. -/
def clientErrorJ (detail : String) : JVal :=
  jobj [("type", jstr "client_error"),
        ("errors", jarr [jobj [("attr", jnull), ("detail", jstr detail)]])]

/-- `CryptoAPITrading._request`: compute headers (which may raise), then
dispatch and convert any `requests.RequestException` into the structured
error payload.  `json.loads(json.dumps(body_obj))` is modelled as the
identity on the body object. -/
def _request (env : NetEnv) (client : Client) (method path : String)
    (body_obj : Option JVal) : Except PyExc JVal :=
  let url := client.baseUrl ++ path
  let body_str := match body_obj with
    | some o => jsonDumps env.fm.render o
    | none => ""
  match _auth_headers env client method path body_str with
  | .error e => .error e
  | .ok headers =>
    match method with
    | "GET" =>
      match env.transport "GET" url headers none with
      | .success j => .ok j
      | .failure e => .ok (clientErrorJ ("Request error: " ++ e))
    | "POST" =>
      match env.transport "POST" url headers body_obj with
      | .success j => .ok j
      | .failure e => .ok (clientErrorJ ("Request error: " ++ e))
    | _ => .error (.valueError ("Unsupported method: " ++ method))

/-- `CryptoAPITrading.get_query_params`. -/
def get_query_params (key : String) (args : List (Option String)) : String :=
  if args.isEmpty then ""
  else
    let params := args.filterMap (fun a => a.map (fun v => key ++ "=" ++ v))
    if params.isEmpty then "" else "?" ++ String.intercalate "&" params

/-- Render accumulated `(key, value)` query parameters. -/
def qpOf (params : List (String × String)) : String :=
  if params.isEmpty then ""
  else "?" ++ String.intercalate "&" (params.map (fun kv => kv.1 ++ "=" ++ kv.2))

/-- `get_account`. -/
def get_account (env : NetEnv) (client : Client) : Except PyExc JVal :=
  _request env client "GET" "/api/v1/crypto/trading/accounts/" none

/-- `get_best_bid_ask`. -/
def get_best_bid_ask (env : NetEnv) (client : Client) (symbols : List (Option String)) :
    Except PyExc JVal :=
  _request env client "GET"
    ("/api/v1/crypto/marketdata/best_bid_ask/" ++ get_query_params "symbol" symbols) none

/-- `get_estimated_price`. -/
def get_estimated_price (env : NetEnv) (client : Client) (symbol side quantity : String) :
    Except PyExc JVal :=
  _request env client "GET"
    ("/api/v1/crypto/marketdata/estimated_price/?symbol=" ++ symbol ++ "&side=" ++ side ++
      "&quantity=" ++ quantity) none

/-- Query parameters accumulated by `get_trading_pairs` / `get_holdings`:
truthy symbols under `key`, then optional `limit` and `cursor`. -/
def pairsParams (key : String) (symbols : List (Option String))
    (limit : Option Nat) (cursor : Option String) : List (String × String) :=
  (symbols.filterMap (fun s =>
      match s with
      | some v => if v = "" then none else some (key, v)
      | none => none)) ++
    (match limit with | some n => [("limit", pyNatStr n)] | none => []) ++
    (match cursor with | some c => [("cursor", c)] | none => [])

/-- `get_trading_pairs`. -/
def get_trading_pairs (env : NetEnv) (client : Client) (symbols : List (Option String))
    (limit : Option Nat) (cursor : Option String) : Except PyExc JVal :=
  _request env client "GET"
    ("/api/v1/crypto/trading/trading_pairs/" ++ qpOf (pairsParams "symbol" symbols limit cursor))
    none

/-- `get_holdings`. -/
def get_holdings (env : NetEnv) (client : Client) (asset_codes : List (Option String))
    (limit : Option Nat) (cursor : Option String) : Except PyExc JVal :=
  _request env client "GET"
    ("/api/v1/crypto/trading/holdings/" ++ qpOf (pairsParams "asset_code" asset_codes limit cursor))
    none

/-- Query parameters accumulated by `get_orders` (insertion order of the
source's `add` calls). -/
def ordersParams (symbol side state type_ created_at_start created_at_end
    updated_at_start updated_at_end : Option String)
    (limit : Option Nat) (cursor : Option String) : List (String × String) :=
  (match symbol with | some v => [("symbol", v)] | none => []) ++
  (match side with | some v => [("side", v)] | none => []) ++
  (match state with | some v => [("state", v)] | none => []) ++
  (match type_ with | some v => [("type", v)] | none => []) ++
  (match created_at_start with | some v => [("created_at_start", v)] | none => []) ++
  (match created_at_end with | some v => [("created_at_end", v)] | none => []) ++
  (match updated_at_start with | some v => [("updated_at_start", v)] | none => []) ++
  (match updated_at_end with | some v => [("updated_at_end", v)] | none => []) ++
  (match limit with | some n => [("limit", pyNatStr n)] | none => []) ++
  (match cursor with | some c => [("cursor", c)] | none => [])

/-- `get_orders`. -/
def get_orders (env : NetEnv) (client : Client)
    (symbol side state type_ created_at_start created_at_end
      updated_at_start updated_at_end : Option String)
    (limit : Option Nat) (cursor : Option String) : Except PyExc JVal :=
  _request env client "GET"
    ("/api/v1/crypto/trading/orders/" ++
      qpOf (ordersParams symbol side state type_ created_at_start created_at_end
        updated_at_start updated_at_end limit cursor)) none

/-- `get_order`. -/
def get_order (env : NetEnv) (client : Client) (order_id : String) : Except PyExc JVal :=
  _request env client "GET" ("/api/v1/crypto/trading/orders/" ++ order_id ++ "/") none

/-- `cancel_order`. -/
def cancel_order (env : NetEnv) (client : Client) (order_id : String) : Except PyExc JVal :=
  _request env client "POST" ("/api/v1/crypto/trading/orders/" ++ order_id ++ "/cancel/") none

/-- `place_order`. -/
def place_order (env : NetEnv) (client : Client) (client_order_id side order_type symbol : String)
    (order_config : JVal) : Except PyExc JVal :=
  let body := jobj [("client_order_id", jstr client_order_id), ("side", jstr side),
    ("type", jstr order_type), ("symbol", jstr symbol),
    (order_type ++ "_order_config", order_config)]
  _request env client "POST" "/api/v1/crypto/trading/orders/" (some body)

/-! ### CoinMarketCap helpers (`utils/coinmarketcap.py`) -/

/-- Instrumentation of one invocation of a CoinMarketCap helper: how many
times `_cmc_get` was entered and which `time.sleep` durations ran. -/
structure Trace where
  calls : Nat
  sleeps : List Nat
deriving Repr, DecidableEq

/-- The empty trace at the start of an invocation. -/
def trace0 : Trace := { calls := 0, sleeps := [] }

/-- Outcome of one `requests.get` against the CoinMarketCap API:
2xx with a parsed JSON body, or a raised `requests.RequestException`
(connection failure, timeout, `raise_for_status`, JSON decode). -/
inductive CMCOutcome where
  | httpOk : JVal → CMCOutcome
  | httpError : String → CMCOutcome

/-- External collaborators of the CoinMarketCap helpers: `os.getenv` and the
HTTP transport, indexed by the call count within one invocation. -/
structure CMCEnv where
  getenv : String → Option String
  transport : Nat → String → List (String × String) → CMCOutcome
  fm : FloatModel

/-- The `CoinMarketCapError` message for a missing key. -/
def cmcKeyMsg : String := "CMC_API_KEY not set in environment"

/-- `str(v)` for the values that can appear in an error message. -/
def pyStrJ (fr : ℚ → String) : JVal → String
  | .jstr s => s
  | .jnum q => fr q
  | .jnull => "None"
  | .jbool b => if b then "True" else "False"
  | v => jsonDumps fr v

/-- The vendor-envelope check of `_cmc_get`: a dict with a `status` whose
`error_code` is nonzero raises `CoinMarketCapError` with the vendor's
message. `None != 0` is true in Python, so a null `error_code` also
raises. -/
def statusCheck (fr : ℚ → String) (data : JVal) : Except PyExc JVal :=
  match data with
  | jobj fields =>
    match fields.lookup "status" with
    | none => .ok data
    | some sv =>
      match sv with
      | jobj sf =>
        let ec := (sf.lookup "error_code").getD (jnum 0)
        let neZero := match ec with
          | jnum q => q != 0
          | _ => true
        if neZero then
          let em := (sf.lookup "error_message").getD jnull
          .error (.cmcError (if pyTruthy em then pyStrJ fr em else "CMC API error"))
        else .ok data
      | _ => .error (.attributeError "object has no attribute get: error_code")
  | _ => .ok data

/-- `_cmc_get`: check `CMC_API_KEY`, dispatch, convert any
`requests.RequestException` into a `CoinMarketCapError`, and apply the
vendor-envelope check. The trace records that an attempt was made. -/
def _cmc_get (env : CMCEnv) (path : String) (params : List (String × String))
    (tr : Trace) : Except PyExc JVal × Trace :=
  let tr1 : Trace := { calls := tr.calls + 1, sleeps := tr.sleeps }
  match env.getenv "CMC_API_KEY" with
  | none => (.error (.cmcError cmcKeyMsg), tr1)
  | some k =>
    if k = "" then (.error (.cmcError cmcKeyMsg), tr1)
    else
      match env.transport tr.calls path params with
      | .httpError e => (.error (.cmcError ("Request failed: " ++ e)), tr1)
      | .httpOk data => (statusCheck env.fm.render data, tr1)

/-- `get_latest_quote`. -/
def get_latest_quote (env : CMCEnv) (symbol : String) (tr : Trace) :
    Except PyExc JVal × Trace :=
  _cmc_get env "/cryptocurrency/quotes/latest" [("symbol", symbol.toUpper)] tr

/-- `get_top_listings`. -/
def get_top_listings (env : CMCEnv) (limit : Nat) (convert : String) (tr : Trace) :
    Except PyExc JVal × Trace :=
  _cmc_get env "/cryptocurrency/listings/latest"
    [("start", "1"), ("limit", pyNatStr limit), ("convert", convert)] tr

/-- The query parameters built by `get_historical_ohlcv` (dict insertion
order; `time_start`/`time_end` only when truthy). -/
def ohlcvParams (symbol : String) (time_start time_end : Option String)
    (interval : String) : List (String × String) :=
  [("symbol", symbol.toUpper), ("interval", interval)] ++
    (match time_start with
      | some s => if s = "" then [] else [("time_start", s)]
      | none => []) ++
    (match time_end with
      | some s => if s = "" then [] else [("time_end", s)]
      | none => [])

/-- The `for attempt in range(3)` retry loop of `get_historical_ohlcv`:
`CoinMarketCapError` on a non-final attempt sleeps `1 + attempt * 2`
seconds and continues; the final attempt re-raises.  Any other exception
propagates immediately.  An exhausted loop would return Python's implicit
`None`. -/
def histLoop (env : CMCEnv) (path : String) (params : List (String × String)) :
    List Nat → Trace → Except PyExc JVal × Trace
  | [], tr => (.ok jnull, tr)
  | attempt :: rest, tr =>
    match _cmc_get env path params tr with
    | (.ok v, tr1) => (.ok v, tr1)
    | (.error (.cmcError m), tr1) =>
      if attempt < 2 then
        histLoop env path params rest
          { calls := tr1.calls, sleeps := tr1.sleeps ++ [1 + attempt * 2] }
      else (.error (.cmcError m), tr1)
    | (.error e, tr1) => (.error e, tr1)

/-- `get_historical_ohlcv`. -/
def get_historical_ohlcv (env : CMCEnv) (symbol : String)
    (time_start time_end : Option String) (interval : String) (tr : Trace) :
    Except PyExc JVal × Trace :=
  histLoop env "/cryptocurrency/ohlcv/historical"
    (ohlcvParams symbol time_start time_end interval) [0, 1, 2] tr

/-! ### Pricing / portfolio display (`utils/pricing.py`) -/

/-- `float(v)` with CPython's raising behavior. -/
def pyFloatStrict (fm : FloatModel) : JVal → Except PyExc ℚ
  | jnum q => .ok q
  | jstr s =>
    match fm.parse s with
    | some q => .ok q
    | none => .error (.valueError "could not convert string to float")
  | jbool b => .ok (if b then 1 else 0)
  | jnull => .error (.typeError "float() argument must not be None")
  | _ => .error (.typeError "float() argument must be a string or a real number")

/-- `try: float(v) except (TypeError, ValueError): 0.0`. -/
def pyFloatLenient (fm : FloatModel) (v : JVal) : ℚ :=
  match pyFloatStrict fm v with
  | .ok q => q
  | .error _ => 0

/-- Accumulator loop of `get_all_holdings`: collect
`(asset_code, quantity_available_for_trading)` pairs. -/
def gahLoop : List JVal → List (JVal × JVal) → Except PyExc (List (JVal × JVal))
  | [], acc => .ok acc.reverse
  | h :: rest, acc => do
    let asset ← pyDictGetD h "asset_code" jnull
    let quantity ← pyDictGetD h "quantity_available_for_trading" jnull
    gahLoop rest ((asset, quantity) :: acc)

/-- `get_all_holdings` (pricing.py). -/
def get_all_holdings (env : NetEnv) (client : Client) :
    Except PyExc (List (JVal × JVal)) := do
  let holdings ← get_holdings env client [] none none
  let rv ← pyDictGetD holdings "results" (jarr [])
  let items ← pyIterList rv
  gahLoop items []

/-- Loop body of `fetch_cmc_quotes_for_holdings`, accumulating printed
lines. -/
def fcqLoop (fm : FloatModel) (cmc : CMCEnv) :
    List (JVal × JVal) → List String → Except PyExc (List String)
  | [], acc => .ok acc
  | (assetJ, qtyJ) :: rest, acc => do
    let quantity ← pyFloatStrict fm qtyJ
    match assetJ with
    | jstr asset =>
      match (get_latest_quote cmc asset trace0).1 with
      | .error (.cmcError m) =>
        fcqLoop fm cmc rest (acc ++ ["\nCoinMarketCap error for " ++ asset ++ ": " ++ m])
      | .error e => .error e
      | .ok quote => do
        let d1 ← pyDictGetD quote "data" (jobj [])
        let d2 ← pyDictGetD d1 asset.toUpper (jobj [])
        let d3 ← pyDictGetD d2 "quote" (jobj [])
        let usd ← pyDictGetD d3 "USD" jnull
        if pyTruthy usd then do
          let priceJ ← pyDictGetD usd "price" (jnum 0)
          let price ←
            match priceJ with
            | jnum q => Except.ok q
            | _ => Except.error (.typeError "unsupported operand type for *")
          let total_value := quantity * price
          fcqLoop fm cmc rest (acc ++
            ["\n" ++ asset ++ ": " ++ fm.render quantity ++ " @ $" ++ fm.fmt2 price ++
              " = $" ++ fm.fmt2 total_value,
             "CMC data:", jsonDumpsInd fm.render 2 0 usd])
        else
          fcqLoop fm cmc rest (acc ++
            ["\nCMC returned no USD quote for " ++ asset, "Full CMC response:",
             jsonDumpsInd fm.render 2 0 quote])
    | _ => .error (.attributeError "object has no attribute upper")

/-- `fetch_cmc_quotes_for_holdings`: silently do nothing without a
`CMC_API_KEY` or with no holdings; otherwise print a quote block per
holding. -/
def fetch_cmc_quotes_for_holdings (fm : FloatModel) (cmc : CMCEnv)
    (holdings : List (JVal × JVal)) : Except PyExc (List String) :=
  match cmc.getenv "CMC_API_KEY" with
  | none => .ok []
  | some k =>
    if k = "" then .ok []
    else if holdings.length = 0 then .ok []
    else fcqLoop fm cmc holdings []

/-- `display_portfolio`: fetch holdings, then print CoinMarketCap quotes
for them.  The returned list is everything printed. -/
def display_portfolio (net : NetEnv) (cmc : CMCEnv) (client : Client) :
    Except PyExc (List String) := do
  let holdings ← get_all_holdings net client
  fetch_cmc_quotes_for_holdings net.fm cmc holdings

/-! ### Daily snapshot writer (`utils/logger.py`) -/

/-- A UTC wall-clock instant as used by `datetime.datetime.now(utc)`. -/
structure DateTime where
  year : Nat
  month : Nat
  day : Nat
  hour : Nat
  minute : Nat
  second : Nat

/-- `f"{n:02d}"`. -/
def pad2 (n : Nat) : String := if n < 10 then "0" ++ pyNatStr n else pyNatStr n

/-- `f"{n:04d}"`. -/
def pad4 (n : Nat) : String :=
  if n < 10 then "000" ++ pyNatStr n
  else if n < 100 then "00" ++ pyNatStr n
  else if n < 1000 then "0" ++ pyNatStr n
  else pyNatStr n

/-- `logs/<year>/<month>/<day>.json` for the current UTC date
(`_ensure_daily_path`; directory creation has no effect on file content). -/
def dailyPath (logs_dir : String) (dt : DateTime) : String :=
  logs_dir ++ "/" ++ pad4 dt.year ++ "/" ++ pad2 dt.month ++ "/" ++ pad2 dt.day ++ ".json"

/-- The local file system: a map from paths to file contents. -/
def FS : Type := String → Option String

/-- Whole-document write of one file. -/
def fsWrite (fs : FS) (p c : String) : FS := fun q => if q = p then some c else fs q

/-- Everything `write_daily_snapshot` interacts with. -/
structure SnapEnv where
  net : NetEnv
  client : Client
  cmc : CMCEnv
  nowDT : DateTime

/-- The enrichment of one holding row by `_fetch_holdings_quotes`: the
fields appended by `row.update(...)` and the value added to the running
total. -/
def rowFields (se : SnapEnv) (symbol : String) (qty : ℚ) :
    Except PyExc (List (String × JVal) × ℚ) :=
  match (get_latest_quote se.cmc symbol trace0).1 with
  | .error (.cmcError m) => .ok ([("error", jstr m)], 0)
  | .error e => .error e
  | .ok quote => do
    let d1 ← pyDictGetD quote "data" (jobj [])
    let d2 ← pyDictGetD d1 symbol (jobj [])
    let d3 ← pyDictGetD d2 "quote" (jobj [])
    let usd ← pyDictGetD (jOr d3 (jobj [])) "USD" jnull
    if pyTruthy usd then do
      let priceJ ← pyDictGetD usd "price" jnull
      let price ← pyFloatStrict se.net.fm (jOr priceJ (jnum 0))
      let value := qty * price
      .ok ([("price_usd", jnum price), ("value_usd", jnum value), ("usd_quote", usd)], value)
    else
      .ok ([("price_usd", jnull), ("value_usd", jnull), ("usd_quote", jnull)], 0)

/-- Loop body of `_fetch_holdings_quotes`. -/
def fhqLoop (se : SnapEnv) :
    List (JVal × JVal) → List JVal → ℚ → Except PyExc (List JVal × ℚ)
  | [], acc, total => .ok (acc.reverse, total)
  | (assetJ, qtyJ) :: rest, acc, total => do
    let symbol ←
      match jOr assetJ (jstr "") with
      | jstr s => Except.ok s.toUpper
      | _ => Except.error (.attributeError "object has no attribute upper")
    let qty := pyFloatLenient se.net.fm qtyJ
    match rowFields se symbol qty with
    | .error e => .error e
    | .ok (extra, add) =>
      fhqLoop se rest
        (jobj (("symbol", jstr symbol) :: ("quantity", jnum qty) :: extra) :: acc)
        (total + add)

/-- `_fetch_holdings_quotes`: any exception while fetching the Robinhood
holdings yields `([], 0.0)` (after printing a diagnostic). -/
def fetchHoldingsQuotes (se : SnapEnv) : Except PyExc (List JVal × ℚ) :=
  match get_all_holdings se.net se.client with
  | .error _ => .ok ([], 0)
  | .ok rh => fhqLoop se rh [] 0

/-- One row of `_fetch_top_coins`. -/
def topRow (item : JVal) : Except PyExc JVal := do
  let quoteJ ← pyDictGetD item "quote" jnull
  let usd0 ← pyDictGetD (jOr quoteJ (jobj [])) "USD" jnull
  let usd := jOr usd0 (jobj [])
  let rank ← pyDictGetD item "cmc_rank" jnull
  let sym ← pyDictGetD item "symbol" jnull
  let name ← pyDictGetD item "name" jnull
  let price ← pyDictGetD usd "price" jnull
  let mcap ← pyDictGetD usd "market_cap" jnull
  let pch ← pyDictGetD usd "percent_change_24h" jnull
  .ok (jobj [("rank", rank), ("symbol", sym), ("name", name), ("price_usd", price),
    ("market_cap_usd", mcap), ("percent_change_24h", pch), ("usd_quote", usd)])

/-- Loop of `_fetch_top_coins`. -/
def topLoop : List JVal → List JVal → Except PyExc (List JVal)
  | [], acc => .ok acc.reverse
  | item :: rest, acc => do
    let row ← topRow item
    topLoop rest (row :: acc)

/-- `_fetch_top_coins`: a `CoinMarketCapError` yields `[]`. -/
def fetchTopCoins (se : SnapEnv) (limit : Nat) : Except PyExc (List JVal) :=
  match (get_top_listings se.cmc limit "USD" trace0).1 with
  | .error (.cmcError _) => .ok []
  | .error e => .error e
  | .ok data => do
    let dv ← pyDictGetD data "data" (jarr [])
    let items ← pyIterList dv
    topLoop (items.take limit) []

/-- `now.replace(microsecond=0).isoformat().replace("+00:00", "Z")`. -/
def isoZ (dt : DateTime) : String :=
  pad4 dt.year ++ "-" ++ pad2 dt.month ++ "-" ++ pad2 dt.day ++ "T" ++
    pad2 dt.hour ++ ":" ++ pad2 dt.minute ++ ":" ++ pad2 dt.second ++ "Z"

/-- The snapshot payload dict of `write_daily_snapshot`. -/
def snapshotPayload (se : SnapEnv) (holdings : List JVal) (total : ℚ)
    (top : List JVal) : JVal :=
  jobj [("date", jstr (pad4 se.nowDT.year ++ "-" ++ pad2 se.nowDT.month ++ "-" ++ pad2 se.nowDT.day)),
    ("generated_at_iso", jstr (isoZ se.nowDT)),
    ("holdings", jarr holdings),
    ("top_coins", jarr top),
    ("summary", jobj [("portfolio_value_usd", jnum total),
      ("num_holdings", jnum holdings.length),
      ("top_count", jnum top.length)])]

/-- `write_daily_snapshot`: skip when the file for the current UTC date
exists and `overwrite` is not set; otherwise fetch, build the payload and
write `json.dump(payload, f, indent=2)`. -/
def write_daily_snapshot (se : SnapEnv) (fs : FS) (logs_dir : String)
    (top_limit : Nat) (overwrite : Bool) : Except PyExc (String × FS) :=
  let file_path := dailyPath logs_dir se.nowDT
  if (fs file_path).isSome ∧ ¬overwrite then .ok (file_path, fs)
  else do
    let hq ← fetchHoldingsQuotes se
    let top ← fetchTopCoins se top_limit
    .ok (file_path,
      fsWrite fs file_path (jsonDumpsInd se.net.fm.render 2 0 (snapshotPayload se hq.1 hq.2 top)))

/-! ### Dilution check (`utils/asset_analysis.py`) -/

/-- Python float division of two JSON values. -/
def pyDivJ : JVal → JVal → Except PyExc ℚ
  | jnum a, jnum b =>
    if b = 0 then .error (.zeroDivisionError "float division by zero") else .ok (a / b)
  | _, _ => .error (.typeError "unsupported operand type for /")

/-- Loop of `check_dillution` over the holdings rows. -/
def cdLoop : List JVal → Except PyExc Bool
  | [] => .ok false
  | holding :: rest => do
    let _symbol ← pyIndex holding "symbol"
    let uq ← pyIndex holding "usd_quote"
    let market_cap ← pyIndex uq "market_cap"
    let fully_diluted_cap ← pyIndex uq "fully_diluted_market_cap"
    if pyTruthy fully_diluted_cap ∧ pyTruthy market_cap then do
      let dilutionQuot ← pyDivJ fully_diluted_cap market_cap
      if dilutionQuot > 3 / 2 then .ok true else cdLoop rest
    else cdLoop rest

/-- `check_dillution`: flag a holding whose fully-diluted market cap
exceeds 1.5x its market cap; falsy values are skipped, never an error. -/
def check_dillution (log_data : JVal) : Except PyExc Bool := do
  let hv ← pyDictGetD log_data "holdings" (jarr [])
  let items ← pyIterList hv
  cdLoop items

/-! ### Injectivity facts about the rendering primitives -/

/-- Value of a most-significant-first digit list. -/
def digitsVal (l : List Nat) : Nat := l.foldl (fun a d => a * 10 + d) 0

theorem digitsVal_snoc (l : List Nat) (d : Nat) :
    digitsVal (l ++ [d]) = 10 * digitsVal l + d := by
  simp [digitsVal, List.foldl_append]
  omega

theorem digitsVal_natDigitsAux : ∀ fuel n, n ≤ fuel → digitsVal (natDigitsAux fuel n) = n := by
  intro fuel
  induction fuel with
  | zero =>
    intro n h
    have : n = 0 := by omega
    simp [this, natDigitsAux, digitsVal]
  | succ f ih =>
    intro n h
    rw [natDigitsAux]
    split
    · simp [digitsVal]
    · rw [digitsVal_snoc, ih (n / 10) (by omega)]
      omega

theorem digitsVal_natDigits (n : Nat) : digitsVal (natDigits n) = n :=
  digitsVal_natDigitsAux n n (Nat.le_refl n)

theorem natDigits_inj (m n : Nat) (h : natDigits m = natDigits n) : m = n := by
  have := congrArg digitsVal h
  rwa [digitsVal_natDigits, digitsVal_natDigits] at this

theorem natDigitsAux_lt_ten : ∀ fuel n, ∀ d ∈ natDigitsAux fuel n, d < 10 := by
  intro fuel
  induction fuel with
  | zero =>
    intro n d hd
    simp [natDigitsAux] at hd
    omega
  | succ f ih =>
    intro n d hd
    rw [natDigitsAux] at hd
    split at hd
    · simp at hd
      omega
    · rcases List.mem_append.mp hd with h1 | h2
      · exact ih (n / 10) d h1
      · simp at h2
        omega

theorem natDigits_lt_ten (n : Nat) : ∀ d ∈ natDigits n, d < 10 :=
  natDigitsAux_lt_ten n n

theorem digitChar_toNat : ∀ d, d < 10 → (digitChar d).toNat = 48 + d := by decide

theorem digitChars_inj : ∀ l1 l2 : List Nat, (∀ d ∈ l1, d < 10) → (∀ d ∈ l2, d < 10) →
    l1.map digitChar = l2.map digitChar → l1 = l2 := by
  intro l1
  induction l1 with
  | nil => intro l2 _ _ h; cases l2 <;> simp_all
  | cons a r ih =>
    intro l2 hb1 hb2 h
    cases l2 with
    | nil => simp at h
    | cons a2 r2 =>
      simp only [List.map_cons, List.cons.injEq] at h
      have ha : a = a2 := by
        have := congrArg Char.toNat h.1
        rw [digitChar_toNat a (hb1 a (by simp)), digitChar_toNat a2 (hb2 a2 (by simp))] at this
        omega
      have hr : r = r2 := ih r2 (fun d hd => hb1 d (by simp [hd])) (fun d hd => hb2 d (by simp [hd])) h.2
      rw [ha, hr]

theorem pyNatStr_inj (m n : Nat) (h : pyNatStr m = pyNatStr n) : m = n := by
  have hd := congrArg String.data h
  simp only [pyNatStr] at hd
  exact natDigits_inj m n
    (digitChars_inj _ _ (natDigits_lt_ten m) (natDigits_lt_ten n) hd)

theorem char_toNat_lt (c : Char) : c.toNat < 1114112 := by
  have h := c.valid
  unfold UInt32.isValidChar Nat.isValidChar at h
  have : c.toNat = c.val.toNat := rfl
  rcases h with h | ⟨h1, h2⟩ <;> omega

theorem utf8Bytes_lt (n : Nat) (hn : n < 1114112) : ∀ x ∈ utf8Bytes n, x < 256 := by
  unfold utf8Bytes
  split_ifs <;> intro x hx <;> simp at hx <;> omega

theorem utf8Bytes_ne_nil (n : Nat) : utf8Bytes n ≠ [] := by
  unfold utf8Bytes
  split_ifs <;> simp

theorem utf8Bytes_cancel (c1 c2 : Nat) (h1 : c1 < 1114112) (h2 : c2 < 1114112)
    (r1 r2 : List Nat) (h : utf8Bytes c1 ++ r1 = utf8Bytes c2 ++ r2) :
    c1 = c2 ∧ r1 = r2 := by
  unfold utf8Bytes at h
  split_ifs at h <;>
    simp only [List.cons_append, List.nil_append, List.cons.injEq] at h <;>
    first
    | exact ⟨by omega, h.2⟩
    | exact ⟨by omega, h.2.2⟩
    | exact ⟨by omega, h.2.2.2⟩
    | exact ⟨by omega, h.2.2.2.2⟩
    | (exfalso; omega)

theorem utf8Chars_inj : ∀ l1 l2 : List Char,
    (l1.map (fun c => utf8Bytes c.toNat)).flatten = (l2.map (fun c => utf8Bytes c.toNat)).flatten →
    l1 = l2 := by
  intro l1
  induction l1 with
  | nil =>
    intro l2 h
    cases l2 with
    | nil => rfl
    | cons c r =>
      simp only [List.map_nil, List.flatten_nil, List.map_cons, List.flatten_cons] at h
      exact absurd (List.append_eq_nil.mp h.symm).1 (utf8Bytes_ne_nil c.toNat)
  | cons c1 r1 ih =>
    intro l2 h
    cases l2 with
    | nil =>
      simp only [List.map_cons, List.flatten_cons, List.map_nil, List.flatten_nil] at h
      exact absurd (List.append_eq_nil.mp h).1 (utf8Bytes_ne_nil c1.toNat)
    | cons c2 r2 =>
      simp only [List.map_cons, List.flatten_cons] at h
      obtain ⟨hc, hr⟩ :=
        utf8Bytes_cancel c1.toNat c2.toNat (char_toNat_lt c1) (char_toNat_lt c2) _ _ h
      have : c1 = c2 := Char.ext (UInt32.ext hc)
      rw [this, ih r2 hr]

theorem strData_inj (s1 s2 : String) (h : s1.data = s2.data) : s1 = s2 := by
  cases s1; cases s2; exact congrArg String.mk h

theorem strUtf8_inj (s1 s2 : String) (h : strUtf8 s1 = strUtf8 s2) : s1 = s2 :=
  strData_inj s1 s2 (utf8Chars_inj s1.data s2.data h)

theorem strUtf8_lt (s : String) : ∀ x ∈ strUtf8 s, x < 256 := by
  intro x hx
  simp only [strUtf8] at hx
  obtain ⟨l, hl, hxl⟩ := List.mem_flatten.mp hx
  obtain ⟨c, _, rfl⟩ := List.mem_map.mp hl
  exact utf8Bytes_lt c.toNat (char_toNat_lt c) x hxl

theorem encChar_toNat : ∀ n, n < 64 → (encChar n).toNat = b64code n := by decide

theorem encChar_inj (m n : Nat) (hm : m < 64) (hn : n < 64) (h : encChar m = encChar n) :
    m = n := by
  have ht := congrArg Char.toNat h
  rw [encChar_toNat m hm, encChar_toNat n hn] at ht
  unfold b64code at ht
  split_ifs at ht <;> omega

theorem encChar_ne_pad : ∀ n, n < 64 → encChar n ≠ '=' := by decide

theorem b64chars_inj : ∀ l1 l2 : List Nat, (∀ x ∈ l1, x < 256) → (∀ x ∈ l2, x < 256) →
    b64chars l1 = b64chars l2 → l1 = l2 := by
  intro l1
  induction l1 using b64chars.induct with
  | case1 =>
    intro l2 _ hb2 h
    match l2 with
    | [] => rfl
    | [a] => simp [b64chars] at h
    | [a, b] => simp [b64chars] at h
    | a :: b :: c :: r => simp [b64chars] at h
  | case2 a =>
    intro l2 hb1 hb2 h
    have ha : a < 256 := hb1 a (by simp)
    match l2 with
    | [] => simp [b64chars] at h
    | [a2] =>
      have ha2 : a2 < 256 := hb2 a2 (by simp)
      simp only [b64chars, List.cons.injEq] at h
      obtain ⟨e1, e2, -⟩ := h
      have f1 : a / 4 = a2 / 4 := encChar_inj _ _ (by omega) (by omega) e1
      have f2 : a % 4 * 16 = a2 % 4 * 16 := encChar_inj _ _ (by omega) (by omega) e2
      have : a = a2 := by omega
      rw [this]
    | [a2, b2] =>
      simp only [b64chars, List.cons.injEq] at h
      obtain ⟨-, -, e3, -⟩ := h
      exact absurd e3.symm (encChar_ne_pad (b2 % 16 * 4) (by omega))
    | a2 :: b2 :: c2 :: r2 =>
      have hc2 : c2 < 256 := hb2 c2 (by simp)
      simp only [b64chars, List.cons.injEq] at h
      obtain ⟨-, -, e3, -⟩ := h
      exact absurd e3.symm (encChar_ne_pad (b2 % 16 * 4 + c2 / 64) (by omega))
  | case3 a b =>
    intro l2 hb1 hb2 h
    have ha : a < 256 := hb1 a (by simp)
    have hb : b < 256 := hb1 b (by simp)
    match l2 with
    | [] => simp [b64chars] at h
    | [a2] =>
      simp only [b64chars, List.cons.injEq] at h
      obtain ⟨-, -, e3, -⟩ := h
      exact absurd e3 (encChar_ne_pad (b % 16 * 4) (by omega))
    | [a2, b2] =>
      have ha2 : a2 < 256 := hb2 a2 (by simp)
      have hbb2 : b2 < 256 := hb2 b2 (by simp)
      simp only [b64chars, List.cons.injEq] at h
      obtain ⟨e1, e2, e3, -⟩ := h
      have f1 : a / 4 = a2 / 4 := encChar_inj _ _ (by omega) (by omega) e1
      have f2 : a % 4 * 16 + b / 16 = a2 % 4 * 16 + b2 / 16 :=
        encChar_inj _ _ (by omega) (by omega) e2
      have f3 : b % 16 * 4 = b2 % 16 * 4 := encChar_inj _ _ (by omega) (by omega) e3
      have : a = a2 ∧ b = b2 := by omega
      rw [this.1, this.2]
    | a2 :: b2 :: c2 :: r2 =>
      simp only [b64chars, List.cons.injEq] at h
      obtain ⟨-, -, -, e4, -⟩ := h
      exact absurd e4.symm (encChar_ne_pad (c2 % 64) (by omega))
  | case4 a b c rest ih =>
    intro l2 hb1 hb2 h
    have ha : a < 256 := hb1 a (by simp)
    have hb : b < 256 := hb1 b (by simp)
    have hc : c < 256 := hb1 c (by simp)
    match l2 with
    | [] => simp [b64chars] at h
    | [a2] =>
      simp only [b64chars, List.cons.injEq] at h
      obtain ⟨-, -, e3, -⟩ := h
      exact absurd e3 (encChar_ne_pad (b % 16 * 4 + c / 64) (by omega))
    | [a2, b2] =>
      simp only [b64chars, List.cons.injEq] at h
      obtain ⟨-, -, -, e4, -⟩ := h
      exact absurd e4 (encChar_ne_pad (c % 64) (by omega))
    | a2 :: b2 :: c2 :: r2 =>
      have ha2 : a2 < 256 := hb2 a2 (by simp)
      have hbb2 : b2 < 256 := hb2 b2 (by simp)
      have hc2 : c2 < 256 := hb2 c2 (by simp)
      simp only [b64chars, List.cons.injEq] at h
      obtain ⟨e1, e2, e3, e4, etail⟩ := h
      have f1 : a / 4 = a2 / 4 := encChar_inj _ _ (by omega) (by omega) e1
      have f2 : a % 4 * 16 + b / 16 = a2 % 4 * 16 + b2 / 16 :=
        encChar_inj _ _ (by omega) (by omega) e2
      have f3 : b % 16 * 4 + c / 64 = b2 % 16 * 4 + c2 / 64 :=
        encChar_inj _ _ (by omega) (by omega) e3
      have f4 : c % 64 = c2 % 64 := encChar_inj _ _ (by omega) (by omega) e4
      have hr : rest = r2 :=
        ih r2 (fun x hx => hb1 x (by simp [hx])) (fun x hx => hb2 x (by simp [hx])) etail
      have : a = a2 ∧ b = b2 ∧ c = c2 := by omega
      rw [this.1, this.2.1, this.2.2, hr]

theorem b64encodeBytes_inj (l1 l2 : List Nat) (hb1 : ∀ x ∈ l1, x < 256)
    (hb2 : ∀ x ∈ l2, x < 256) (h : b64encodeBytes l1 = b64encodeBytes l2) : l1 = l2 :=
  b64chars_inj l1 l2 hb1 hb2 (congrArg String.data h)

/-! ### Shared helper lemmas and witness fixtures -/

/-- base64 of a 32-byte all-zero Ed25519 seed, used as a test credential. -/
def seedKeyB64 : String := "AAAAAAAAAAAAAAAAAAAAAAAAAAAAAAAAAAAAAAAAAAA="

theorem genSig_ok (sign : List Nat → List Nat → List Nat) (api_key b64key : String)
    (ts : Nat) (p m bd : String) (seed : List Nat)
    (hdec : b64decodeBytes b64key = some seed) (hlen : seed.length = 32) :
    generate_signature_base64 sign api_key b64key ts p m bd =
      .ok (b64encodeBytes (sign seed (strUtf8 (api_key ++ pyNatStr ts ++ p ++ m ++ bd)))) := by
  unfold generate_signature_base64
  rw [hdec]
  simp [hlen]

/-- Float semantics fixture for witnesses. -/
def fmW : FloatModel :=
  { parse := fun _ => none, render := fun _ => "0.0", fmt2 := fun _ => "0.00" }

/-- Client-environment fixture for witnesses. -/
def netW : NetEnv :=
  { sign := fun _ _ => [], transport := fun _ _ _ _ => .failure "connection error",
    now := 1700000000, fm := fmW }

/-- Credential-less client fixture (empty process environment). -/
def clientW : Client := mkClient none none (fun _ => none) "https://trading.robinhood.com" 10

/-- CoinMarketCap environment fixture with no `CMC_API_KEY`. -/
def cmcW : CMCEnv :=
  { getenv := fun _ => none, transport := fun _ _ _ => .httpError "offline", fm := fmW }

/-- A UTC instant fixture. -/
def dtW : DateTime := { year := 2026, month := 10, day := 12, hour := 3, minute := 4, second := 5 }

/-- Snapshot environment fixture. -/
def seW : SnapEnv := { net := netW, client := clientW, cmc := cmcW, nowDT := dtW }

/-- A file system in which today's snapshot already exists. -/
def fsW : FS := fun p => if p = "logs/2026/10/12.json" then some "old-content" else none

/-! ### Claim C1 -/

/-- C1: for a fixed tuple whose base64 private key decodes to a 32-byte
Ed25519 seed, `generate_signature_base64` is deterministic (repeated calls
return the identical base64 signature) and the signature is computed over
exactly the concatenation `api_key ++ timestamp ++ path ++ method ++ body`,
with the body the empty string for bodyless requests. -/
theorem c1_signature_deterministic_exact_message
    (sign : List Nat → List Nat → List Nat) (api_key b64key : String)
    (timestamp : Nat) (path method body : String) (seed : List Nat)
    (hdec : b64decodeBytes b64key = some seed) (hlen : seed.length = 32) :
    generate_signature_base64 sign api_key b64key timestamp path method body =
      .ok (b64encodeBytes (sign seed
        (strUtf8 (api_key ++ pyNatStr timestamp ++ path ++ method ++ body)))) ∧
    generate_signature_base64 sign api_key b64key timestamp path method body =
      generate_signature_base64 sign api_key b64key timestamp path method body :=
  ⟨genSig_ok sign api_key b64key timestamp path method body seed hdec hlen, rfl⟩

/-- Witness for C1 at concrete test credentials. -/
theorem c1_witness :
    b64decodeBytes seedKeyB64 = some (List.replicate 32 0) ∧
    (List.replicate 32 0).length = 32 ∧
    (generate_signature_base64 (fun _ msg => msg) "apikey" seedKeyB64 1700000000
        "/api/v1/crypto/trading/accounts/" "GET" "" =
      .ok (b64encodeBytes (strUtf8 ("apikey" ++ pyNatStr 1700000000 ++
        "/api/v1/crypto/trading/accounts/" ++ "GET" ++ ""))) ∧
    generate_signature_base64 (fun _ msg => msg) "apikey" seedKeyB64 1700000000
        "/api/v1/crypto/trading/accounts/" "GET" "" =
      generate_signature_base64 (fun _ msg => msg) "apikey" seedKeyB64 1700000000
        "/api/v1/crypto/trading/accounts/" "GET" "") :=
  ⟨by decide, by decide,
    c1_signature_deterministic_exact_message (fun _ msg => msg) "apikey" seedKeyB64
      1700000000 "/api/v1/crypto/trading/accounts/" "GET" "" (List.replicate 32 0)
      (by decide) (by decide)⟩

/-! ### Claim C3 -/

/-- C3: when the snapshot file for the current UTC date already exists,
`write_daily_snapshot` without the overwrite flag returns the existing path
and leaves the file system — and hence the file's content — unchanged. -/
theorem c3_snapshot_idempotent (se : SnapEnv) (fs : FS) (logs_dir : String)
    (top_limit : Nat) (content : String)
    (hex : fs (dailyPath logs_dir se.nowDT) = some content) :
    write_daily_snapshot se fs logs_dir top_limit false =
      .ok (dailyPath logs_dir se.nowDT, fs) := by
  unfold write_daily_snapshot
  simp [hex]

/-- Witness for C3: a concrete state with today's file present. -/
theorem c3_witness :
    fsW (dailyPath "logs" seW.nowDT) = some "old-content" ∧
    write_daily_snapshot seW fsW "logs" 50 false = .ok (dailyPath "logs" seW.nowDT, fsW) :=
  ⟨by decide, c3_snapshot_idempotent seW fsW "logs" 50 "old-content" (by decide)⟩

/-! ### Claim C8 -/

/-- C8: with the overwrite flag set, `write_daily_snapshot` replaces the
file's content with the newly generated snapshot payload, whatever the file
system previously held at that path. -/
theorem c8_overwrite_replaces (se : SnapEnv) (fs : FS) (logs_dir : String)
    (top_limit : Nat) (holdings : List JVal) (total : ℚ) (top : List JVal)
    (hH : fetchHoldingsQuotes se = .ok (holdings, total))
    (hT : fetchTopCoins se top_limit = .ok top) :
    write_daily_snapshot se fs logs_dir top_limit true =
      .ok (dailyPath logs_dir se.nowDT,
        fsWrite fs (dailyPath logs_dir se.nowDT)
          (jsonDumpsInd se.net.fm.render 2 0 (snapshotPayload se holdings total top))) := by
  unfold write_daily_snapshot
  simp [hH, hT, bind, Except.bind]

/-- Witness for C8 on a state whose file already exists with different
content. -/
theorem c8_witness :
    fetchHoldingsQuotes seW = .ok ([], 0) ∧
    fetchTopCoins seW 50 = .ok [] ∧
    write_daily_snapshot seW fsW "logs" 50 true =
      .ok (dailyPath "logs" seW.nowDT,
        fsWrite fsW (dailyPath "logs" seW.nowDT)
          (jsonDumpsInd seW.net.fm.render 2 0 (snapshotPayload seW [] 0 []))) :=
  ⟨rfl, rfl, c8_overwrite_replaces seW fsW "logs" 50 [] 0 [] rfl rfl⟩

/-! ### Claim C4 -/

/-- A parsed daily log with a single holding row carrying the given
market-cap and fully-diluted-market-cap values. -/
def dilLog (sym : String) (mcv fdv : JVal) : JVal :=
  jobj [("holdings", jarr [jobj [("symbol", jstr sym),
    ("usd_quote", jobj [("market_cap", mcv), ("fully_diluted_market_cap", fdv)])]])]

/-- C4: the dilution check flags a holding exactly when both caps are
non-null and non-zero and their quotient strictly exceeds 1.5; a quotient
of exactly 1.5 is not flagged, and a null or zero value yields `false`
without raising. -/
theorem c4_dilution_signal (sym : String) (mcv fdv : JVal) :
    (∀ mc fd : ℚ, mcv = jnum mc → fdv = jnum fd → mc ≠ 0 → fd ≠ 0 → fd / mc > 3 / 2 →
      check_dillution (dilLog sym mcv fdv) = .ok true) ∧
    (∀ mc fd : ℚ, mcv = jnum mc → fdv = jnum fd → mc ≠ 0 → fd ≠ 0 → fd / mc = 3 / 2 →
      check_dillution (dilLog sym mcv fdv) = .ok false) ∧
    ((fdv = jnull ∨ fdv = jnum 0 ∨ mcv = jnull ∨ mcv = jnum 0) →
      check_dillution (dilLog sym mcv fdv) = .ok false) := by
  refine ⟨?_, ?_, ?_⟩
  · rintro mc fd rfl rfl hmc hfd hgt
    simp +decide [check_dillution, dilLog, pyDictGetD, pyIterList, cdLoop, pyIndex, pyTruthy,
      pyDivJ, bind, Except.bind, List.lookup, hmc, hfd, hgt]
  · rintro mc fd rfl rfl hmc hfd heq
    simp +decide [check_dillution, dilLog, pyDictGetD, pyIterList, cdLoop, pyIndex, pyTruthy,
      pyDivJ, bind, Except.bind, List.lookup, hmc, hfd, heq]
  · rintro (rfl | rfl | rfl | rfl) <;>
      simp +decide [check_dillution, dilLog, pyDictGetD, pyIterList, cdLoop, pyIndex, pyTruthy,
        pyDivJ, bind, Except.bind, List.lookup]

/-- Witness for C4: ratio 1.6 flags, ratio exactly 1.5 does not, a null
value does not and does not raise. -/
theorem c4_witness :
    check_dillution (dilLog "BTC" (jnum 10) (jnum 16)) = .ok true ∧
    check_dillution (dilLog "BTC" (jnum 10) (jnum 15)) = .ok false ∧
    check_dillution (dilLog "BTC" (jnum 10) jnull) = .ok false :=
  ⟨(c4_dilution_signal "BTC" (jnum 10) (jnum 16)).1 10 16 rfl rfl
      (by norm_num) (by norm_num) (by norm_num),
    (c4_dilution_signal "BTC" (jnum 10) (jnum 15)).2.1 10 15 rfl rfl
      (by norm_num) (by norm_num) (by norm_num),
    (c4_dilution_signal "BTC" (jnum 10) jnull).2.2 (Or.inl rfl)⟩

/-! ### Claim C10 -/

/-- C10: with `CMC_API_KEY` unset (or empty), `get_historical_ohlcv` does
not fail fast: it makes all three attempts, sleeps 1s then 3s, and only
then surfaces the missing-credential `CoinMarketCapError`. -/
theorem c10_missing_key_still_retries (env : CMCEnv) (symbol : String)
    (t1 t2 : Option String) (interval : String)
    (hkey : env.getenv "CMC_API_KEY" = none ∨ env.getenv "CMC_API_KEY" = some "") :
    get_historical_ohlcv env symbol t1 t2 interval trace0 =
      (.error (.cmcError cmcKeyMsg), { calls := 3, sleeps := [1, 3] }) := by
  rcases hkey with h | h <;>
    simp [get_historical_ohlcv, histLoop, _cmc_get, h, trace0]

/-- Witness for C10 in an environment with no `CMC_API_KEY`. -/
theorem c10_witness :
    get_historical_ohlcv cmcW "BTC" none none "daily" trace0 =
      (.error (.cmcError cmcKeyMsg), { calls := 3, sleeps := [1, 3] }) :=
  c10_missing_key_still_retries cmcW "BTC" none none "daily" (Or.inl rfl)

/-! ### Claim C5 -/

theorem cmcGet_trace (env : CMCEnv) (path : String) (params : List (String × String))
    (tr : Trace) :
    (_cmc_get env path params tr).2 = { calls := tr.calls + 1, sleeps := tr.sleeps } := by
  unfold _cmc_get
  split
  · rfl
  · split
    · rfl
    · split <;> rfl

theorem histLoop_calls_le (env : CMCEnv) (path : String)
    (params : List (String × String)) :
    ∀ (l : List Nat) (tr : Trace),
      (histLoop env path params l tr).2.calls ≤ tr.calls + l.length := by
  intro l
  induction l with
  | nil => intro tr; simp [histLoop]
  | cons a rest ih =>
    intro tr
    have hsnd := cmcGet_trace env path params tr
    simp only [histLoop]
    rcases hget : _cmc_get env path params tr with ⟨r, tr1⟩
    rw [hget] at hsnd
    simp only at hsnd
    subst hsnd
    simp only [List.length_cons]
    rcases r with e | v
    · rcases e with m | m | m | m | m | m | m | m
      · simp
      · simp
      · simp
      · simp
      · simp
      · simp
      · -- `CoinMarketCapError`: either retry on the remaining attempts or
        -- re-raise on the final one
        by_cases ha : a < 2
        · have hrec := ih { calls := tr.calls + 1, sleeps := tr.sleeps ++ [1 + a * 2] }
          simp only at hrec
          simp [ha]
          omega
        · simp [ha]
      · simp
    · simp

/-- C5: the historical-OHLCV lookup makes at most 3 attempts; when the
first two attempts fail and the third succeeds, the success is returned
after exactly two backoff sleeps of 1s and 3s (`1 + 2 * attempt_index`);
the latest-quote and top-listings lookups make exactly one attempt, sleep
never, and propagate the typed `CoinMarketCapError` to the caller. -/
theorem c5_retry_policy (env : CMCEnv) (symbol : String) (t1 t2 : Option String)
    (interval : String) :
    ((get_historical_ohlcv env symbol t1 t2 interval trace0).2.calls ≤ 3) ∧
    (∀ key m0 m1 v,
      env.getenv "CMC_API_KEY" = some key → key ≠ "" →
      env.transport 0 "/cryptocurrency/ohlcv/historical"
        (ohlcvParams symbol t1 t2 interval) = .httpError m0 →
      env.transport 1 "/cryptocurrency/ohlcv/historical"
        (ohlcvParams symbol t1 t2 interval) = .httpError m1 →
      env.transport 2 "/cryptocurrency/ohlcv/historical"
        (ohlcvParams symbol t1 t2 interval) = .httpOk v →
      statusCheck env.fm.render v = .ok v →
      get_historical_ohlcv env symbol t1 t2 interval trace0 =
        (.ok v, { calls := 3, sleeps := [1, 3] })) ∧
    (∀ tr, (get_latest_quote env symbol tr).2 =
      { calls := tr.calls + 1, sleeps := tr.sleeps }) ∧
    (∀ limit convert tr, (get_top_listings env limit convert tr).2 =
      { calls := tr.calls + 1, sleeps := tr.sleeps }) ∧
    (∀ key m tr, env.getenv "CMC_API_KEY" = some key → key ≠ "" →
      env.transport tr.calls "/cryptocurrency/quotes/latest"
        [("symbol", symbol.toUpper)] = .httpError m →
      (get_latest_quote env symbol tr).1 = .error (.cmcError ("Request failed: " ++ m))) ∧
    (∀ limit convert key m tr, env.getenv "CMC_API_KEY" = some key → key ≠ "" →
      env.transport tr.calls "/cryptocurrency/listings/latest"
        [("start", "1"), ("limit", pyNatStr limit), ("convert", convert)] = .httpError m →
      (get_top_listings env limit convert tr).1 =
        .error (.cmcError ("Request failed: " ++ m))) := by
  refine ⟨?_, ?_, ?_, ?_, ?_, ?_⟩
  · have h := histLoop_calls_le env "/cryptocurrency/ohlcv/historical"
      (ohlcvParams symbol t1 t2 interval) [0, 1, 2] trace0
    simpa [get_historical_ohlcv, trace0] using h
  · intro key m0 m1 v hkey hkne h0 h1 h2 hst
    simp [get_historical_ohlcv, histLoop, _cmc_get, trace0, hkey, hkne, h0, h1, h2, hst]
  · intro tr
    exact cmcGet_trace env "/cryptocurrency/quotes/latest" [("symbol", symbol.toUpper)] tr
  · intro limit convert tr
    exact cmcGet_trace env "/cryptocurrency/listings/latest"
      [("start", "1"), ("limit", pyNatStr limit), ("convert", convert)] tr
  · intro key m tr hkey hkne htr
    simp [get_latest_quote, _cmc_get, hkey, hkne, htr]
  · intro limit convert key m tr hkey hkne htr
    simp [get_top_listings, _cmc_get, hkey, hkne, htr]

/-- CoinMarketCap environment fixture for the C5 witness: the first two
calls fail at the transport, the third returns a status-clean payload. -/
def cmcRetryW : CMCEnv :=
  { getenv := fun v => if v = "CMC_API_KEY" then some "cmckey" else none,
    transport := fun i _ _ =>
      if i < 2 then .httpError "timeout" else .httpOk (jobj [("data", jarr [])]),
    fm := fmW }

/-- Witness for C5: two transport failures then success returns the
success payload with sleeps `[1, 3]`; one latest-quote attempt. -/
theorem c5_witness :
    (get_historical_ohlcv cmcRetryW "BTC" none none "daily" trace0).2.calls ≤ 3 ∧
    get_historical_ohlcv cmcRetryW "BTC" none none "daily" trace0 =
      (.ok (jobj [("data", jarr [])]), { calls := 3, sleeps := [1, 3] }) ∧
    (get_latest_quote cmcRetryW "BTC" trace0).2 = { calls := 1, sleeps := [] } :=
  ⟨(c5_retry_policy cmcRetryW "BTC" none none "daily").1,
    (c5_retry_policy cmcRetryW "BTC" none none "daily").2.1 "cmckey" "timeout" "timeout"
      (jobj [("data", jarr [])]) rfl (by decide) rfl rfl rfl rfl,
    (c5_retry_policy cmcRetryW "BTC" none none "daily").2.2.1 trace0⟩

/-! ### Claim C2 -/

theorem request_transport_failure (env : NetEnv) (client : Client) (k b : String)
    (seed : List Nat) (msg : String)
    (hk : client.apiKey = some k) (hk2 : k ≠ "")
    (hb : client.b64PrivateKey = some b) (hb2 : b ≠ "")
    (hdec : b64decodeBytes b = some seed) (hlen : seed.length = 32)
    (htr : ∀ me u hs bo, env.transport me u hs bo = .failure msg) :
    ∀ method path body_obj, (method = "GET" ∨ method = "POST") →
      _request env client method path body_obj =
        .ok (clientErrorJ ("Request error: " ++ msg)) := by
  intro method path body_obj hm
  unfold _request _auth_headers
  rw [hk, hb]
  simp only [strTruthy, Option.getD_some]
  rw [genSig_ok env.sign k b env.now path method _ seed hdec hlen]
  rcases hm with rfl | rfl <;> simp [hk2, hb2, htr]

/-- C2: with valid credentials, every network-issuing operation converts a
transport failure (`requests.RequestException`) into the structured payload
`\x7b"type": "client_error", "errors": [\x7b"attr": null, "detail": msg\x7d]\x7d`
instead of raising. -/
theorem c2_transport_error_is_data (env : NetEnv) (client : Client) (k b : String)
    (seed : List Nat) (msg : String)
    (hk : client.apiKey = some k) (hk2 : k ≠ "")
    (hb : client.b64PrivateKey = some b) (hb2 : b ≠ "")
    (hdec : b64decodeBytes b = some seed) (hlen : seed.length = 32)
    (htr : ∀ me u hs bo, env.transport me u hs bo = .failure msg) :
    get_account env client = .ok (clientErrorJ ("Request error: " ++ msg)) ∧
    (∀ symbols, get_best_bid_ask env client symbols =
      .ok (clientErrorJ ("Request error: " ++ msg))) ∧
    (∀ symbol side quantity, get_estimated_price env client symbol side quantity =
      .ok (clientErrorJ ("Request error: " ++ msg))) ∧
    (∀ symbols limit cursor, get_trading_pairs env client symbols limit cursor =
      .ok (clientErrorJ ("Request error: " ++ msg))) ∧
    (∀ asset_codes limit cursor, get_holdings env client asset_codes limit cursor =
      .ok (clientErrorJ ("Request error: " ++ msg))) ∧
    (∀ symbol side state type_ cs ce us ue limit cursor,
      get_orders env client symbol side state type_ cs ce us ue limit cursor =
        .ok (clientErrorJ ("Request error: " ++ msg))) ∧
    (∀ order_id, get_order env client order_id =
      .ok (clientErrorJ ("Request error: " ++ msg))) ∧
    (∀ order_id, cancel_order env client order_id =
      .ok (clientErrorJ ("Request error: " ++ msg))) ∧
    (∀ client_order_id side order_type symbol order_config,
      place_order env client client_order_id side order_type symbol order_config =
        .ok (clientErrorJ ("Request error: " ++ msg))) := by
  have hreq := request_transport_failure env client k b seed msg hk hk2 hb hb2 hdec hlen htr
  refine ⟨?_, fun _ => ?_, fun _ _ _ => ?_, fun _ _ _ => ?_, fun _ _ _ => ?_,
    fun _ _ _ _ _ _ _ _ _ _ => ?_, fun _ => ?_, fun _ => ?_, fun _ _ _ _ _ => ?_⟩ <;>
    simp only [get_account, get_best_bid_ask, get_estimated_price, get_trading_pairs,
      get_holdings, get_orders, get_order, cancel_order, place_order] <;>
    first
    | exact hreq _ _ _ (Or.inl rfl)
    | exact hreq _ _ _ (Or.inr rfl)

/-- A client with valid test credentials. -/
def clientOkW : Client :=
  { apiKey := some "apikey", b64PrivateKey := some seedKeyB64,
    baseUrl := "https://trading.robinhood.com", timeout := 10 }

/-- Witness for C2: a concrete always-failing transport. -/
theorem c2_witness :
    get_account netW clientOkW = .ok (clientErrorJ "Request error: connection error") ∧
    cancel_order netW clientOkW "1234" = .ok (clientErrorJ "Request error: connection error") :=
  ⟨(c2_transport_error_is_data netW clientOkW "apikey" seedKeyB64 (List.replicate 32 0)
      "connection error" rfl (by decide) rfl (by decide) (by decide) (by decide)
      (fun _ _ _ _ => rfl)).1,
    (c2_transport_error_is_data netW clientOkW "apikey" seedKeyB64 (List.replicate 32 0)
      "connection error" rfl (by decide) rfl (by decide) (by decide) (by decide)
      (fun _ _ _ _ => rfl)).2.2.2.2.2.2.2.1 "1234"⟩

/-! ### Claim C6 -/

theorem request_missing_creds (env : NetEnv) (client : Client)
    (h : strTruthy client.apiKey = false ∨ strTruthy client.b64PrivateKey = false) :
    ∀ method path body_obj,
      _request env client method path body_obj = .error (.runtimeError credsMsg) := by
  intro method path body_obj
  unfold _request _auth_headers
  rcases h with h | h <;> simp [h]

/-- C6: construction with absent credentials succeeds (`__init__` has no
raising path), but every network-issuing operation raises the
configuration `RuntimeError` before any signing or network attempt — the
result is the same error for every signing primitive and transport. -/
theorem c6_lazy_credential_check (env : NetEnv) (client : Client)
    (h : strTruthy client.apiKey = false ∨ strTruthy client.b64PrivateKey = false) :
    (mkClient none none (fun _ => none) "https://trading.robinhood.com" 10 =
      { apiKey := none, b64PrivateKey := none,
        baseUrl := "https://trading.robinhood.com", timeout := 10 }) ∧
    get_account env client = .error (.runtimeError credsMsg) ∧
    (∀ symbols, get_best_bid_ask env client symbols = .error (.runtimeError credsMsg)) ∧
    (∀ symbol side quantity, get_estimated_price env client symbol side quantity =
      .error (.runtimeError credsMsg)) ∧
    (∀ symbols limit cursor, get_trading_pairs env client symbols limit cursor =
      .error (.runtimeError credsMsg)) ∧
    (∀ asset_codes limit cursor, get_holdings env client asset_codes limit cursor =
      .error (.runtimeError credsMsg)) ∧
    (∀ symbol side state type_ cs ce us ue limit cursor,
      get_orders env client symbol side state type_ cs ce us ue limit cursor =
        .error (.runtimeError credsMsg)) ∧
    (∀ order_id, get_order env client order_id = .error (.runtimeError credsMsg)) ∧
    (∀ order_id, cancel_order env client order_id = .error (.runtimeError credsMsg)) ∧
    (∀ client_order_id side order_type symbol order_config,
      place_order env client client_order_id side order_type symbol order_config =
        .error (.runtimeError credsMsg)) := by
  have hreq := request_missing_creds env client h
  refine ⟨by decide, ?_, fun _ => ?_, fun _ _ _ => ?_, fun _ _ _ => ?_, fun _ _ _ => ?_,
    fun _ _ _ _ _ _ _ _ _ _ => ?_, fun _ => ?_, fun _ => ?_, fun _ _ _ _ _ => ?_⟩ <;>
    simp only [get_account, get_best_bid_ask, get_estimated_price, get_trading_pairs,
      get_holdings, get_orders, get_order, cancel_order, place_order] <;>
    exact hreq _ _ _

/-- Witness for C6 with the credential-less fixture client. -/
theorem c6_witness :
    clientW.apiKey = none ∧
    get_account netW clientW = .error (.runtimeError credsMsg) ∧
    place_order netW clientW "cid" "buy" "market" "BTC-USD" (jobj []) =
      .error (.runtimeError credsMsg) :=
  ⟨rfl,
    (c6_lazy_credential_check netW clientW (Or.inl rfl)).2.1,
    (c6_lazy_credential_check netW clientW (Or.inl rfl)).2.2.2.2.2.2.2.2.2
      "cid" "buy" "market" "BTC-USD" (jobj [])⟩

/-! ### Claim C7 -/

/-- C7: for a fixed key pair, two signing tuples that differ in exactly one
of timestamp, path, method or body produce different signed messages, and
hence — for any signing pipeline that distinguishes distinct messages, as a
collision-free Ed25519 does — different signatures: no field of the signed
tuple is ignored. -/
theorem c7_signature_sensitivity (sign : List Nat → List Nat → List Nat)
    (api_key b64key : String) (seed : List Nat)
    (hdec : b64decodeBytes b64key = some seed) (hlen : seed.length = 32)
    (hsig : ∀ s1 s2 : String, s1 ≠ s2 →
      b64encodeBytes (sign seed (strUtf8 s1)) ≠ b64encodeBytes (sign seed (strUtf8 s2)))
    (ts ts' : Nat) (p p' m m' bd bd' : String)
    (hone : (ts ≠ ts' ∧ p = p' ∧ m = m' ∧ bd = bd') ∨
            (ts = ts' ∧ p ≠ p' ∧ m = m' ∧ bd = bd') ∨
            (ts = ts' ∧ p = p' ∧ m ≠ m' ∧ bd = bd') ∨
            (ts = ts' ∧ p = p' ∧ m = m' ∧ bd ≠ bd')) :
    generate_signature_base64 sign api_key b64key ts p m bd ≠
      generate_signature_base64 sign api_key b64key ts' p' m' bd' := by
  intro heq
  rw [genSig_ok sign api_key b64key ts p m bd seed hdec hlen,
    genSig_ok sign api_key b64key ts' p' m' bd' seed hdec hlen] at heq
  have henc := Except.ok.inj heq
  have hmsg : api_key ++ pyNatStr ts ++ p ++ m ++ bd =
      api_key ++ pyNatStr ts' ++ p' ++ m' ++ bd' := by
    by_contra hne
    exact hsig _ _ hne henc
  have hd := congrArg String.data hmsg
  simp only [String.data_append, List.append_assoc] at hd
  rcases hone with ⟨hne, rfl, rfl, rfl⟩ | ⟨rfl, hne, rfl, rfl⟩ |
    ⟨rfl, rfl, hne, rfl⟩ | ⟨rfl, rfl, rfl, hne⟩
  · exact hne (pyNatStr_inj _ _ (strData_inj _ _
      (List.append_cancel_right (List.append_cancel_left hd))))
  · exact hne (strData_inj _ _
      (List.append_cancel_right (List.append_cancel_left (List.append_cancel_left hd))))
  · exact hne (strData_inj _ _
      (List.append_cancel_right (List.append_cancel_left
        (List.append_cancel_left (List.append_cancel_left hd)))))
  · exact hne (strData_inj _ _
      (List.append_cancel_left (List.append_cancel_left
        (List.append_cancel_left (List.append_cancel_left hd)))))

/-- Witness for C7: two timestamps, everything else fixed, with an
injective signing pipeline instance. -/
theorem c7_witness :
    generate_signature_base64 (fun _ msg => msg) "apikey" seedKeyB64 0 "/a/" "GET" "" ≠
      generate_signature_base64 (fun _ msg => msg) "apikey" seedKeyB64 1 "/a/" "GET" "" :=
  c7_signature_sensitivity (fun _ msg => msg) "apikey" seedKeyB64 (List.replicate 32 0)
    (by decide) (by decide)
    (fun s1 s2 hne he =>
      hne (strUtf8_inj s1 s2 (b64encodeBytes_inj _ _ (strUtf8_lt s1) (strUtf8_lt s2) he)))
    0 1 "/a/" "/a/" "GET" "GET" "" ""
    (Or.inl ⟨by decide, rfl, rfl, rfl⟩)

/-! ### Claim C9 -/

/-- C9 (amended): with no `CMC_API_KEY` configured, `display_portfolio`
completes without raising and the quote-enrichment step is silently
skipped; nothing at all is printed — in particular the holdings are not
printed. -/
theorem c9_display_without_key (net : NetEnv) (cmc : CMCEnv) (client : Client)
    (hs : List (JVal × JVal)) (hh : get_all_holdings net client = Except.ok hs)
    (hkey : cmc.getenv "CMC_API_KEY" = none ∨ cmc.getenv "CMC_API_KEY" = some "") :
    display_portfolio net cmc client = .ok [] := by
  simp only [display_portfolio, hh]
  rcases hkey with h | h <;>
    simp [fetch_cmc_quotes_for_holdings, h, bind, Except.bind]

/-- Witness for C9's amended statement (same scenario as the
counterexample, reached through the theorem). -/
theorem c9_witness :
    display_portfolio netW cmcW clientOkW = .ok [] :=
  c9_display_without_key netW cmcW clientOkW
    [] (by rfl) (Or.inl rfl)

/-- Transport fixture whose holdings response contains one BTC row. -/
def netHoldW : NetEnv :=
  { sign := fun _ _ => [],
    transport := fun _ _ _ _ => .success (jobj [("results", jarr [jobj
      [("asset_code", jstr "BTC"), ("quantity_available_for_trading", jstr "1")]])]),
    now := 1700000000, fm := fmW }

set_option maxHeartbeats 1000000

/-- Counterexample to C9 as stated: a portfolio with one BTC holding is
fetched, `CMC_API_KEY` is unset, and `display_portfolio` prints the empty
list of lines — it does not print the holdings. -/
theorem c9_counterexample :
    get_all_holdings netHoldW clientOkW = .ok [(jstr "BTC", jstr "1")] ∧
    display_portfolio netHoldW cmcW clientOkW = .ok [] :=
  ⟨rfl, rfl⟩

set_option maxHeartbeats 200000

end TT
